import Mathlib

/-!
# Engauge Digitizer: the "Edit Curve Point(s)" dialog

A shallow embedding of `src/Dlg/DlgEditPointCurve.cpp`.

* Widgets are records holding the properties the dialog reads or writes
  (`QLineEdit`: text, style sheet, validator, help text; `QPushButton`: enabled).
* Member functions are state transformers on the record `DlgEditPointCurve`.
* Collaborators declared in headers that are not part of this translation unit
  (validator factory, coordinate formatter, `THETA`, `tr`, the toolkit's decision
  whether `setText` emits `textChanged`) are fields of the record `Collaborators`,
  so every theorem holds for all of them.
* `QString::arg` is modelled on lists of characters (`qArgChars`).
* The destructor, the logging calls and the layout calls have no effect on the
  properties above; `unitsType` is called nowhere in the file and needs two helpers
  declared elsewhere, so it is left out.
-/

namespace Engauge

/-! ## Enumerations used by the dialog -/

/-- Axis scale; the dialog only tests for `COORD_SCALE_LOG`. -/
inductive CoordScale where
  | COORD_SCALE_LINEAR
  | COORD_SCALE_LOG
  deriving DecidableEq

/-- Coordinate system kind; the dialog only tests for `COORDS_TYPE_CARTESIAN`. -/
inductive CoordsType where
  | COORDS_TYPE_CARTESIAN
  | COORDS_TYPE_POLAR
  deriving DecidableEq

/-- Result of `QValidator::validate`. -/
inductive QValidatorState where
  | Invalid
  | Intermediate
  | Acceptable
  deriving DecidableEq

/-- A validator as the dialog uses it: `validate (text, pos)` called on a local copy
of the text, of which only the returned state is read. -/
abbrev DlgValidatorAbstract := String → QValidatorState

/-! ## QString::arg -/

/-- Decimal value of a character that can follow `%` in a place marker. Only the
ASCII digits are modelled; no other digit follows a `%` in the strings of this file. -/
def digitValue (c : Char) : Option Nat :=
  if c.isDigit then some (c.toNat - 48) else none

/-- Reads a place marker body right after a `%`: an optional `L`, one digit and an
optional second digit. Returns the marker number and how many characters it spans. -/
def parseEscape (cs : List Char) : Option (Nat × Nat) :=
  let skipL : Nat := match cs with
    | 'L' :: _ => 1
    | _ => 0
  match cs.drop skipL with
  | [] => none
  | d :: r =>
    match digitValue d with
    | none => none
    | some e =>
      match r with
      | [] => some (e, skipL + 1)
      | d2 :: _ =>
        match digitValue d2 with
        | some e2 => some (10 * e + e2, skipL + 2)
        | none => some (e, skipL + 1)

/-- Lowest place-marker number occurring in the string, if any. -/
def minEscape : List Char → Option Nat
  | [] => none
  | c :: cs =>
    if c = '%' then
      match parseEscape cs with
      | some (e, _) =>
        match minEscape cs with
        | some m => some (min e m)
        | none => some e
      | none => minEscape cs
    else minEscape cs

/-- Replaces every marker numbered `n` by `a`. The counter is the number of characters
of an already replaced marker that are still to be dropped. -/
def replaceEscapes (n : Nat) (a : List Char) : Nat → List Char → List Char
  | _, [] => []
  | k + 1, _ :: cs => replaceEscapes n a k cs
  | 0, c :: cs =>
    if c = '%' then
      match parseEscape cs with
      | some (e, len) =>
        if e = n then a ++ replaceEscapes n a len cs
        else c :: replaceEscapes n a 0 cs
      | none => c :: replaceEscapes n a 0 cs
    else c :: replaceEscapes n a 0 cs

/-- The list-of-characters body of `QString::arg`: every occurrence of the
lowest-numbered place marker is replaced; a string without marker is returned as is. -/
def qArgChars (s a : List Char) : List Char :=
  match minEscape s with
  | none => s
  | some n => replaceEscapes n a 0 s

/-- The call `QString::arg (const QString &)` with the default field width. -/
def qArg (s a : String) : String := String.mk (qArgChars s.data a.data)

/-- The call `QString::arg (QChar)`. -/
def qArgChar (s : String) (c : Char) : String := qArg s (String.singleton c)

/-! ## Collaborators declared outside this translation unit -/

/-- Types declared in headers that are not part of this file: the unit enumerations of
`DocumentModelCoords`, `QLocale`, `MainWindowModel`, `Transformation`, and the
representation of `double`. -/
structure ExternalTypes where
  CoordUnitsNonPolarTheta : Type
  CoordUnitsPolarTheta : Type
  CoordUnitsDate : Type
  CoordUnitsTime : Type
  QLocale : Type
  MainWindowModel : Type
  Transformation : Type
  Double : Type

/-- The accessors of `DocumentModelCoords` that the dialog calls. -/
structure DocumentModelCoords (T : ExternalTypes) where
  coordsType : CoordsType
  coordScaleXTheta : CoordScale
  coordScaleYRadius : CoordScale
  coordUnitsX : T.CoordUnitsNonPolarTheta
  coordUnitsY : T.CoordUnitsNonPolarTheta
  coordUnitsTheta : T.CoordUnitsPolarTheta
  coordUnitsRadius : T.CoordUnitsNonPolarTheta
  coordUnitsDate : T.CoordUnitsDate
  coordUnitsTime : T.CoordUnitsTime

/-- Functions and constants the dialog calls but does not define. The two string
results of `unformattedToFormatted` are its output parameters `xTheta` and `yRadius`;
the pair returned by `formattedToUnformatted` is its two output parameters.
`setTextEmitsTextChanged old new` is the toolkit's decision whether
`QLineEdit::setText` emits `textChanged`. -/
structure Collaborators (T : ExternalTypes) where
  THETA : Char
  tr : String → String
  locale : T.MainWindowModel → T.QLocale
  QLocaleToString : T.QLocale → String
  createCartesianOrPolarWithPolarPolar :
    CoordScale → Bool → T.CoordUnitsNonPolarTheta → T.CoordUnitsPolarTheta →
      T.CoordUnitsDate → T.CoordUnitsTime → T.QLocale → DlgValidatorAbstract
  createCartesianOrPolarWithNonPolarPolar :
    CoordScale → Bool → T.CoordUnitsNonPolarTheta → T.CoordUnitsNonPolarTheta →
      T.CoordUnitsDate → T.CoordUnitsTime → T.QLocale → DlgValidatorAbstract
  unformattedToFormatted :
    T.Double → T.Double → DocumentModelCoords T → T.MainWindowModel → T.Transformation →
      String × String
  formattedToUnformatted :
    String → String → DocumentModelCoords T → T.MainWindowModel → T.Double × T.Double
  setTextEmitsTextChanged : String → String → Bool

/-! ## Widgets -/

/-- The properties of a `QLineEdit` the dialog reads or writes. -/
structure QLineEdit where
  text : String
  styleSheet : String
  validator : Option DlgValidatorAbstract
  whatsThis : String
  minimumWidth : Nat

/-- A freshly created `QLineEdit`. -/
def QLineEdit.new : QLineEdit :=
  { text := "", styleSheet := "", validator := none, whatsThis := "", minimumWidth := 0 }

/-- The properties of a `QPushButton` the dialog reads or writes. -/
structure QPushButton where
  text : String
  enabled : Bool

/-- Value of `new QPushButton (text, parent)`: a widget is enabled when created. -/
def QPushButton.new (text : String) : QPushButton :=
  { text := text, enabled := true }

/-- Constant `MIN_WIDTH_TO_FIT_STRANGE_UNITS`. -/
def MIN_WIDTH_TO_FIT_STRANGE_UNITS : Nat := 200

/-! ## The dialog -/

/-- State of the dialog: its data members and the texts of the widgets it builds. -/
structure DlgEditPointCurve (T : ExternalTypes) where
  m_changed : Bool
  m_modelCoords : DocumentModelCoords T
  m_modelMainWindow : T.MainWindowModel
  m_validatorGraphX : DlgValidatorAbstract
  m_validatorGraphY : DlgValidatorAbstract
  m_editGraphX : QLineEdit
  m_editGraphY : QLineEdit
  m_btnOk : QPushButton
  m_btnCancel : QPushButton
  windowTitle : String
  description : String
  hint : String

namespace DlgEditPointCurve

variable {T : ExternalTypes}

/-- Source: `isCartesian`. -/
def isCartesian (m : DocumentModelCoords T) : Bool :=
  m.coordsType == CoordsType.COORDS_TYPE_CARTESIAN

/-- Source: `nameXTheta`. -/
def nameXTheta (c : Collaborators T) (m : DocumentModelCoords T) : Char :=
  if isCartesian m then 'X' else c.THETA

/-- Source: `nameYRadius`. -/
def nameYRadius (m : DocumentModelCoords T) : Char :=
  if isCartesian m then 'Y' else 'R'

/-- Help text set on the first field by `createCoords`. -/
def whatsThisGraphX : String :=
  "Enter the first graph coordinate of the axis point.\n\n" ++
  "For cartesian plots this is X. For polar plots this is the radius R.\n\n" ++
  "The expected format of the coordinate value is determined by the locale setting. If " ++
  "typed values are not recognized as expected, check the locale setting in Settings / Main Window..."

/-- Help text set on the second field by `createCoords`. -/
def whatsThisGraphY : String :=
  "Enter the second graph coordinate of the axis point.\n\n" ++
  "For cartesian plots this is Y. For plot plots this is the angle Theta.\n\n" ++
  "The expected format of the coordinate value is determined by the locale setting. If " ++
  "typed values are not recognized as expected, check the locale setting in Settings / Main Window..."

/-- What `createCoords` builds: the two validators, the group-box title and the two
line edits. -/
structure Coords where
  m_validatorGraphX : DlgValidatorAbstract
  m_validatorGraphY : DlgValidatorAbstract
  description : String
  m_editGraphX : QLineEdit
  m_editGraphY : QLineEdit

/-- Source: `createCoords`, the chain of `QString::arg` calls that builds the group-box
label from the two translated strings, the two axis names and the two constraint
flags. -/
def describeCoords (graphCoordinates as_ : String) (nameXTheta nameYRadius : Char)
    (isConstraintX isConstraintY : Bool) : String :=
  let s := "%1 (%2, %3)%4%5%6%7%8%9 %10:"
  let s := qArg s graphCoordinates
  let s := qArgChar s nameXTheta
  let s := qArgChar s nameYRadius
  let s := qArg s (if isConstraintX || isConstraintY then " with " else "")
  let s := qArg s (if isConstraintX then String.singleton nameXTheta else "")
  let s := qArg s (if isConstraintX then " > 0" else "")
  let s := qArg s (if isConstraintX && isConstraintY then " and " else "")
  let s := qArg s (if isConstraintY then String.singleton nameYRadius else "")
  let s := qArg s (if isConstraintY then " > 0" else "")
  qArg s as_

/-- Source: `createCoords`, the text of the group-box label. -/
def createCoordsDescription (c : Collaborators T) (m : DocumentModelCoords T) : String :=
  let isConstraintX : Bool := m.coordScaleXTheta == CoordScale.COORD_SCALE_LOG
  let isConstraintY : Bool := m.coordScaleYRadius == CoordScale.COORD_SCALE_LOG
  describeCoords (c.tr "Graph Coordinates") (c.tr "as") (nameXTheta c m) (nameYRadius m)
    isConstraintX isConstraintY

/-- Source: `createCoords`. -/
def createCoords (c : Collaborators T) (m : DocumentModelCoords T)
    (mw : T.MainWindowModel) : Coords :=
  let m_validatorGraphX :=
    c.createCartesianOrPolarWithPolarPolar m.coordScaleXTheta (isCartesian m)
      m.coordUnitsX m.coordUnitsTheta m.coordUnitsDate m.coordUnitsTime (c.locale mw)
  let m_validatorGraphY :=
    c.createCartesianOrPolarWithNonPolarPolar m.coordScaleYRadius (isCartesian m)
      m.coordUnitsY m.coordUnitsRadius m.coordUnitsDate m.coordUnitsTime (c.locale mw)
  { m_validatorGraphX := m_validatorGraphX
    m_validatorGraphY := m_validatorGraphY
    description := createCoordsDescription c m
    m_editGraphX :=
      { QLineEdit.new with
        minimumWidth := MIN_WIDTH_TO_FIT_STRANGE_UNITS
        validator := some m_validatorGraphX
        whatsThis := c.tr whatsThisGraphX }
    m_editGraphY :=
      { QLineEdit.new with
        minimumWidth := MIN_WIDTH_TO_FIT_STRANGE_UNITS
        validator := some m_validatorGraphY
        whatsThis := c.tr whatsThisGraphY } }

/-- Source: `createHint`, the text of the hint label. -/
def createHint (c : Collaborators T) (mw : T.MainWindowModel) : String :=
  qArg (qArg "%1: %2" (c.tr "Number format")) (c.QLocaleToString (c.locale mw))

/-- Source: `updateControls`. -/
def updateControls (d : DlgEditPointCurve T) : DlgEditPointCurve T :=
  let textX := d.m_editGraphX.text
  let textY := d.m_editGraphY.text
  let colorX := if textX.isEmpty then "lightGray" else "white"
  let colorY := if textY.isEmpty then "lightGray" else "white"
  let styleX := qArg "QLineEdit \x7b background-color: %1; \x7d" colorX
  let styleY := qArg "QLineEdit \x7b background-color: %1; \x7d" colorY
  let test2 : Bool := !textX.isEmpty || !textY.isEmpty
  let test3 : Bool := true
  let test3 : Bool :=
    if !textX.isEmpty then
      test3 && (d.m_validatorGraphX textX == QValidatorState.Acceptable)
    else test3
  let test3 : Bool :=
    if !textY.isEmpty then
      test3 && (d.m_validatorGraphY textY == QValidatorState.Acceptable)
    else test3
  { d with
    m_editGraphX := { d.m_editGraphX with styleSheet := styleX }
    m_editGraphY := { d.m_editGraphY with styleSheet := styleY }
    m_btnOk := { d.m_btnOk with enabled := d.m_changed && test2 && test3 } }

/-- Source: `slotTextChanged`. -/
def slotTextChanged (d : DlgEditPointCurve T) : DlgEditPointCurve T :=
  updateControls { d with m_changed := true }

/-- The call `m_editGraphX->setText (text)`: the text is replaced, and if the toolkit
emits `textChanged` the connected slot runs. -/
def setTextGraphX (c : Collaborators T) (text : String) (d : DlgEditPointCurve T) :
    DlgEditPointCurve T :=
  let d1 := { d with m_editGraphX := { d.m_editGraphX with text := text } }
  if c.setTextEmitsTextChanged d.m_editGraphX.text text then slotTextChanged d1 else d1

/-- The call `m_editGraphY->setText (text)`. -/
def setTextGraphY (c : Collaborators T) (text : String) (d : DlgEditPointCurve T) :
    DlgEditPointCurve T :=
  let d1 := { d with m_editGraphY := { d.m_editGraphY with text := text } }
  if c.setTextEmitsTextChanged d.m_editGraphY.text text then slotTextChanged d1 else d1

/-- Source: `initializeGraphCoordinates`. A null pointer is `none`; `texts` holds the
locals `xTheta` and `yRadius`, which stay empty unless the formatter is called. -/
def initializeGraphCoordinates (c : Collaborators T)
    (xInitialValue yInitialValue : Option T.Double) (transformation : T.Transformation)
    (d : DlgEditPointCurve T) : DlgEditPointCurve T :=
  let texts : String × String :=
    match xInitialValue, yInitialValue with
    | some x, some y =>
      c.unformattedToFormatted x y d.m_modelCoords d.m_modelMainWindow transformation
    | _, _ => ("", "")
  setTextGraphY c texts.2 (setTextGraphX c texts.1 d)

/-- Source: the constructor `DlgEditPointCurve::DlgEditPointCurve`, up to the return
of `createOkCancel`: the member initialisers and the widgets built by `createCoords`,
`createHint` and `createOkCancel`. -/
def constructWidgets (c : Collaborators T) (modelCoords : DocumentModelCoords T)
    (modelMainWindow : T.MainWindowModel) : DlgEditPointCurve T :=
  let coords := createCoords c modelCoords modelMainWindow
  { m_changed := false
    m_modelCoords := modelCoords
    m_modelMainWindow := modelMainWindow
    m_validatorGraphX := coords.m_validatorGraphX
    m_validatorGraphY := coords.m_validatorGraphY
    m_editGraphX := coords.m_editGraphX
    m_editGraphY := coords.m_editGraphY
    m_btnOk := QPushButton.new (c.tr "Ok")
    m_btnCancel := QPushButton.new (c.tr "Cancel")
    windowTitle := c.tr "Edit Curve Point(s)"
    description := coords.description
    hint := createHint c modelMainWindow }

/-- Source: the constructor `DlgEditPointCurve::DlgEditPointCurve`. -/
def construct (c : Collaborators T) (modelCoords : DocumentModelCoords T)
    (modelMainWindow : T.MainWindowModel) (transformation : T.Transformation)
    (xInitialValue yInitialValue : Option T.Double) : DlgEditPointCurve T :=
  let d := constructWidgets c modelCoords modelMainWindow
  let d := initializeGraphCoordinates c xInitialValue yInitialValue transformation d
  updateControls { d with m_changed := false }

/-- Source: `posGraph`. The returned pair is the `QPointF`. -/
def posGraph (c : Collaborators T) (d : DlgEditPointCurve T) : T.Double × T.Double :=
  let r := c.formattedToUnformatted d.m_editGraphX.text d.m_editGraphY.text
    d.m_modelCoords d.m_modelMainWindow
  (r.1, r.2)

/-! ## Events -/

/-- The two coordinate fields. -/
inductive Field where
  | X
  | Y
  deriving DecidableEq

/-- A `textChanged` signal of one of the two line edits, with the new text. -/
structure TextChanged where
  field : Field
  text : String

/-- An edit of a field: the line edit holds the new text and its `textChanged` signal
runs the connected slot `slotTextChanged`. -/
def textChanged (d : DlgEditPointCurve T) (e : TextChanged) : DlgEditPointCurve T :=
  match e.field with
  | Field.X => slotTextChanged { d with m_editGraphX := { d.m_editGraphX with text := e.text } }
  | Field.Y => slotTextChanged { d with m_editGraphY := { d.m_editGraphY with text := e.text } }

/-- A finite sequence of edits, oldest first. -/
def run (d : DlgEditPointCurve T) (es : List TextChanged) : DlgEditPointCurve T :=
  es.foldl textChanged d

/-- What can happen to an open dialog: an edit, or a caller reading `posGraph`. -/
inductive Action where
  | edit (e : TextChanged)
  | readPosGraph

/-- True for the edits. -/
def Action.isEdit : Action → Bool
  | Action.edit _ => true
  | Action.readPosGraph => false

/-- Effect of an action on the dialog; `posGraph` is a `const` member function. -/
def perform (d : DlgEditPointCurve T) : Action → DlgEditPointCurve T
  | Action.edit e => textChanged d e
  | Action.readPosGraph => d

/-- A finite sequence of actions, oldest first. -/
def performAll (d : DlgEditPointCurve T) (acts : List Action) : DlgEditPointCurve T :=
  acts.foldl perform d

/-- Current text of a field. -/
def fieldText (d : DlgEditPointCurve T) : Field → String
  | Field.X => d.m_editGraphX.text
  | Field.Y => d.m_editGraphY.text

/-- The validator `updateControls` asks about a field. -/
def fieldValidator (d : DlgEditPointCurve T) : Field → DlgValidatorAbstract
  | Field.X => d.m_validatorGraphX
  | Field.Y => d.m_validatorGraphY

/-- The validator attached to a field's line edit by `setValidator`. -/
def attachedValidator (d : DlgEditPointCurve T) : Field → Option DlgValidatorAbstract
  | Field.X => d.m_editGraphX.validator
  | Field.Y => d.m_editGraphY.validator

/-- The other field. -/
def Field.other : Field → Field
  | Field.X => Field.Y
  | Field.Y => Field.X

/-- The enablement rule in the words of the specification: the dirty flag is set, the
two texts are not both empty, and every non-empty text is `Acceptable` to its
validator. -/
def EnablementRule (changed : Bool) (textX textY : String)
    (validatorX validatorY : DlgValidatorAbstract) : Prop :=
  changed = true ∧ ¬ (textX = "" ∧ textY = "") ∧
    (textX ≠ "" → validatorX textX = QValidatorState.Acceptable) ∧
    (textY ≠ "" → validatorY textY = QValidatorState.Acceptable)

instance (changed : Bool) (textX textY : String) (validatorX validatorY : DlgValidatorAbstract) :
    Decidable (EnablementRule changed textX textY validatorX validatorY) := by
  unfold EnablementRule
  infer_instance

/-- The group label in the words of the specification: "Graph Coordinates (A, B)", the
constraint clause, then " as:", where A is 'X' or the theta symbol, B is 'Y' or 'R', and
the clause names with "> 0" exactly the axes whose scale is logarithmic. -/
def specDescription (cartesian : Bool) (theta : Char) (logX logY : Bool) : String :=
  let nameA := String.singleton (if cartesian then 'X' else theta)
  let nameB := String.singleton (if cartesian then 'Y' else 'R')
  let clause :=
    match logX, logY with
    | false, false => ""
    | true, false => " with " ++ nameA ++ " > 0"
    | false, true => " with " ++ nameB ++ " > 0"
    | true, true => " with " ++ nameA ++ " > 0 and " ++ nameB ++ " > 0"
  "Graph Coordinates (" ++ nameA ++ ", " ++ nameB ++ ")" ++ clause ++ " as:"

/-! ## Concrete configurations used to evaluate the model -/

end DlgEditPointCurve

/-- External types of the concrete configurations: the unit enumerations, locale, main
window model and transformation carry no information, a `double` is a rational. -/
def demoTypes : ExternalTypes :=
  { CoordUnitsNonPolarTheta := Unit
    CoordUnitsPolarTheta := Unit
    CoordUnitsDate := Unit
    CoordUnitsTime := Unit
    QLocale := Unit
    MainWindowModel := Unit
    Transformation := Unit
    Double := ℚ }

/-- A validator of signed integers: the empty text and a bare minus sign are
`Intermediate`, digits with an optional leading minus sign are `Acceptable`. -/
def numberValidator : DlgValidatorAbstract := fun s =>
  match s.data with
  | [] => QValidatorState.Intermediate
  | ['-'] => QValidatorState.Intermediate
  | '-' :: r => if r.all Char.isDigit then QValidatorState.Acceptable else QValidatorState.Invalid
  | cs => if cs.all Char.isDigit then QValidatorState.Acceptable else QValidatorState.Invalid

/-- A validator of an optional integer: as `numberValidator`, but the empty text is
`Acceptable`. -/
def optionalNumberValidator : DlgValidatorAbstract := fun s =>
  match s.data with
  | [] => QValidatorState.Acceptable
  | _ => numberValidator s

/-- Collaborators of the concrete configurations: untranslated strings, the factory
returns `v` for both axes, `setText` emits `textChanged` when the text differs. -/
def demoCollaborators (v : DlgValidatorAbstract) : Collaborators demoTypes :=
  { THETA := 'θ'
    tr := id
    locale := fun _ => ()
    QLocaleToString := fun _ => "C"
    createCartesianOrPolarWithPolarPolar := fun _ _ _ _ _ _ _ => v
    createCartesianOrPolarWithNonPolarPolar := fun _ _ _ _ _ _ _ => v
    unformattedToFormatted := fun _ _ _ _ _ => ("10", "20")
    formattedToUnformatted := fun textX textY _ _ =>
      if textX = "3.5" ∧ textY = "-2.1" then ((7 : ℚ) / 2, -(21 : ℚ) / 10) else ((0 : ℚ), (0 : ℚ))
    setTextEmitsTextChanged := fun old new => old != new }

/-- A coordinate model of the concrete configurations. -/
def demoModel (coordsType : CoordsType) (scaleXTheta scaleYRadius : CoordScale) :
    DocumentModelCoords demoTypes :=
  { coordsType := coordsType
    coordScaleXTheta := scaleXTheta
    coordScaleYRadius := scaleYRadius
    coordUnitsX := ()
    coordUnitsY := ()
    coordUnitsTheta := ()
    coordUnitsRadius := ()
    coordUnitsDate := ()
    coordUnitsTime := () }

/-- The dialog opened on a cartesian, linear model with validator `v`, with or without
initial values. -/
def demoDialog (v : DlgValidatorAbstract) (withInitialValues : Bool) :
    DlgEditPointCurve demoTypes :=
  DlgEditPointCurve.construct (demoCollaborators v)
    (demoModel CoordsType.COORDS_TYPE_CARTESIAN CoordScale.COORD_SCALE_LINEAR
      CoordScale.COORD_SCALE_LINEAR) () ()
    (if withInitialValues then some (10 : ℚ) else none)
    (if withInitialValues then some (20 : ℚ) else none)

namespace DlgEditPointCurve

variable {T : ExternalTypes}

/-! ## Basic facts about `updateControls` and the slot -/

/-- The test `QString::isEmpty` on a text, as an equation. -/
theorem isEmpty_eq_true_iff (s : String) : s.isEmpty = true ↔ s = "" :=
  String.isEmpty_iff s

/-- The test `QString::isEmpty` failing on a text, as a disequation. -/
theorem isEmpty_eq_false_iff (s : String) : s.isEmpty = false ↔ s ≠ "" := by
  rw [← Bool.not_eq_true, isEmpty_eq_true_iff]

@[simp]
theorem updateControls_m_changed (d : DlgEditPointCurve T) :
    (updateControls d).m_changed = d.m_changed := rfl

@[simp]
theorem updateControls_textX (d : DlgEditPointCurve T) :
    (updateControls d).m_editGraphX.text = d.m_editGraphX.text := rfl

@[simp]
theorem updateControls_textY (d : DlgEditPointCurve T) :
    (updateControls d).m_editGraphY.text = d.m_editGraphY.text := rfl

@[simp]
theorem updateControls_validatorX (d : DlgEditPointCurve T) :
    (updateControls d).m_validatorGraphX = d.m_validatorGraphX := rfl

@[simp]
theorem updateControls_validatorY (d : DlgEditPointCurve T) :
    (updateControls d).m_validatorGraphY = d.m_validatorGraphY := rfl

/-- The flag written by `setEnabled` in `updateControls`, as a proposition. -/
theorem updateControls_enabled_iff (d : DlgEditPointCurve T) :
    (updateControls d).m_btnOk.enabled = true ↔
      EnablementRule d.m_changed d.m_editGraphX.text d.m_editGraphY.text
        d.m_validatorGraphX d.m_validatorGraphY := by
  unfold updateControls EnablementRule
  simp only [ne_eq, ← isEmpty_eq_true_iff]
  cases d.m_editGraphX.text.isEmpty <;> cases d.m_editGraphY.text.isEmpty <;>
    cases d.m_changed <;> simp

@[simp]
theorem updateControls_attachedX (d : DlgEditPointCurve T) :
    (updateControls d).m_editGraphX.validator = d.m_editGraphX.validator := rfl

@[simp]
theorem updateControls_attachedY (d : DlgEditPointCurve T) :
    (updateControls d).m_editGraphY.validator = d.m_editGraphY.validator := rfl

/-- With the dirty flag cleared, `updateControls` disables the OK button. -/
theorem updateControls_disabled_of_not_changed (d : DlgEditPointCurve T)
    (h : d.m_changed = false) : (updateControls d).m_btnOk.enabled = false := by
  simp [updateControls, h]

/-- In a state produced by `updateControls` the OK flag agrees with the rule. -/
theorem enabled_iff_of_updated (d d0 : DlgEditPointCurve T) (h : d = updateControls d0) :
    d.m_btnOk.enabled = true ↔
      EnablementRule d.m_changed d.m_editGraphX.text d.m_editGraphY.text
        d.m_validatorGraphX d.m_validatorGraphY := by
  subst h
  simpa using updateControls_enabled_iff d0

/-- Every edit ends with `updateControls`. -/
theorem textChanged_updated (d : DlgEditPointCurve T) (e : TextChanged) :
    ∃ d0, textChanged d e = updateControls d0 := by
  obtain ⟨f, t⟩ := e
  cases f <;> exact ⟨_, rfl⟩

/-- The constructor ends with `updateControls`. -/
theorem construct_updated (c : Collaborators T) (m : DocumentModelCoords T)
    (mw : T.MainWindowModel) (tf : T.Transformation) (x y : Option T.Double) :
    ∃ d0, construct c m mw tf x y = updateControls d0 :=
  ⟨_, rfl⟩

/-- A state produced by `updateControls` stays of that form under edits. -/
theorem run_updated (es : List TextChanged) (d : DlgEditPointCurve T)
    (h : ∃ d0, d = updateControls d0) : ∃ d0, run d es = updateControls d0 := by
  induction es generalizing d with
  | nil => exact h
  | cons e es ih => exact ih (textChanged d e) (textChanged_updated d e)

@[simp]
theorem textChanged_m_changed (d : DlgEditPointCurve T) (e : TextChanged) :
    (textChanged d e).m_changed = true := by
  obtain ⟨f, t⟩ := e
  cases f <;> rfl

/-- Once set, the dirty flag survives every sequence of edits. -/
theorem run_m_changed (es : List TextChanged) (d : DlgEditPointCurve T)
    (h : d.m_changed = true) : (run d es).m_changed = true := by
  induction es generalizing d with
  | nil => exact h
  | cons e es ih => exact ih (textChanged d e) (textChanged_m_changed d e)

@[simp]
theorem textChanged_fieldValidator (d : DlgEditPointCurve T) (e : TextChanged) (f : Field) :
    fieldValidator (textChanged d e) f = fieldValidator d f := by
  obtain ⟨g, t⟩ := e
  cases g <;> cases f <;> rfl

@[simp]
theorem textChanged_attachedValidator (d : DlgEditPointCurve T) (e : TextChanged) (f : Field) :
    attachedValidator (textChanged d e) f = attachedValidator d f := by
  obtain ⟨g, t⟩ := e
  cases g <;> cases f <;> rfl

theorem run_fieldValidator (es : List TextChanged) (d : DlgEditPointCurve T) (f : Field) :
    fieldValidator (run d es) f = fieldValidator d f := by
  induction es generalizing d with
  | nil => rfl
  | cons e es ih => exact (ih (textChanged d e)).trans (textChanged_fieldValidator d e f)

theorem run_attachedValidator (es : List TextChanged) (d : DlgEditPointCurve T) (f : Field) :
    attachedValidator (run d es) f = attachedValidator d f := by
  induction es generalizing d with
  | nil => rfl
  | cons e es ih => exact (ih (textChanged d e)).trans (textChanged_attachedValidator d e f)

/-- Text of the edited field after an edit. -/
theorem textChanged_fieldText_self (d : DlgEditPointCurve T) (f : Field) (t : String) :
    fieldText (textChanged d ⟨f, t⟩) f = t := by
  cases f <;> rfl

/-- Text of the other field after an edit. -/
theorem textChanged_fieldText_other (d : DlgEditPointCurve T) (f : Field) (t : String) :
    fieldText (textChanged d ⟨f, t⟩) f.other = fieldText d f.other := by
  cases f <;> rfl

theorem setTextGraphX_validators (c : Collaborators T) (t : String) (d : DlgEditPointCurve T)
    (f : Field) :
    fieldValidator (setTextGraphX c t d) f = fieldValidator d f ∧
      attachedValidator (setTextGraphX c t d) f = attachedValidator d f := by
  unfold setTextGraphX
  split <;> cases f <;> exact ⟨rfl, rfl⟩

theorem setTextGraphY_validators (c : Collaborators T) (t : String) (d : DlgEditPointCurve T)
    (f : Field) :
    fieldValidator (setTextGraphY c t d) f = fieldValidator d f ∧
      attachedValidator (setTextGraphY c t d) f = attachedValidator d f := by
  unfold setTextGraphY
  split <;> cases f <;> exact ⟨rfl, rfl⟩

theorem updateControls_validators (d : DlgEditPointCurve T) (f : Field) :
    fieldValidator (updateControls d) f = fieldValidator d f ∧
      attachedValidator (updateControls d) f = attachedValidator d f := by
  cases f <;> exact ⟨rfl, rfl⟩

theorem setChanged_validators (d : DlgEditPointCurve T) (b : Bool) (f : Field) :
    fieldValidator { d with m_changed := b } f = fieldValidator d f ∧
      attachedValidator { d with m_changed := b } f = attachedValidator d f := by
  cases f <;> exact ⟨rfl, rfl⟩

theorem initializeGraphCoordinates_validators (c : Collaborators T)
    (x y : Option T.Double) (tf : T.Transformation) (d : DlgEditPointCurve T) (f : Field) :
    fieldValidator (initializeGraphCoordinates c x y tf d) f = fieldValidator d f ∧
      attachedValidator (initializeGraphCoordinates c x y tf d) f = attachedValidator d f := by
  unfold initializeGraphCoordinates
  exact ⟨((setTextGraphY_validators c _ _ f).1).trans (setTextGraphX_validators c _ d f).1,
    ((setTextGraphY_validators c _ _ f).2).trans (setTextGraphX_validators c _ d f).2⟩

/-- The constructor leaves both the member validators and the attached validators as
`createCoords` built them. -/
theorem construct_validators (c : Collaborators T) (m : DocumentModelCoords T)
    (mw : T.MainWindowModel) (tf : T.Transformation) (x y : Option T.Double) (f : Field) :
    fieldValidator (construct c m mw tf x y) f = fieldValidator (constructWidgets c m mw) f ∧
      attachedValidator (construct c m mw tf x y) f =
        attachedValidator (constructWidgets c m mw) f := by
  have hi := initializeGraphCoordinates_validators c x y tf (constructWidgets c m mw) f
  have hs := setChanged_validators
    (initializeGraphCoordinates c x y tf (constructWidgets c m mw)) false f
  have hu := updateControls_validators
    { initializeGraphCoordinates c x y tf (constructWidgets c m mw) with m_changed := false } f
  exact ⟨hu.1.trans (hs.1.trans hi.1), hu.2.trans (hs.2.trans hi.2)⟩

/-- In a constructed dialog each line edit carries the validator `updateControls` asks. -/
theorem constructWidgets_attached (c : Collaborators T) (m : DocumentModelCoords T)
    (mw : T.MainWindowModel) (f : Field) :
    attachedValidator (constructWidgets c m mw) f =
      some (fieldValidator (constructWidgets c m mw) f) := by
  cases f <;> rfl

/-- In every state reached from the constructor by edits, each line edit carries the
validator `updateControls` asks. -/
theorem reachable_attached (c : Collaborators T) (m : DocumentModelCoords T)
    (mw : T.MainWindowModel) (tf : T.Transformation) (x y : Option T.Double)
    (es : List TextChanged) (f : Field) :
    attachedValidator (run (construct c m mw tf x y) es) f =
      some (fieldValidator (run (construct c m mw tf x y) es) f) := by
  rw [run_attachedValidator, run_fieldValidator, (construct_validators c m mw tf x y f).1,
    (construct_validators c m mw tf x y f).2, constructWidgets_attached]

/-- Actions that are not edits leave the dialog as it is. -/
theorem performAll_of_no_edit (acts : List Action) (d : DlgEditPointCurve T)
    (h : ∀ a ∈ acts, a.isEdit = false) : performAll d acts = d := by
  induction acts generalizing d with
  | nil => rfl
  | cons a acts ih =>
    have ha : a.isEdit = false := h a (List.mem_cons_self a acts)
    have hrest : ∀ b ∈ acts, b.isEdit = false := fun b hb => h b (List.mem_cons_of_mem a hb)
    cases a with
    | edit e => simp [Action.isEdit] at ha
    | readPosGraph => exact ih d hrest

theorem construct_m_changed (c : Collaborators T) (m : DocumentModelCoords T)
    (mw : T.MainWindowModel) (tf : T.Transformation) (x y : Option T.Double) :
    (construct c m mw tf x y).m_changed = false := rfl

theorem construct_disabled (c : Collaborators T) (m : DocumentModelCoords T)
    (mw : T.MainWindowModel) (tf : T.Transformation) (x y : Option T.Double) :
    (construct c m mw tf x y).m_btnOk.enabled = false :=
  updateControls_disabled_of_not_changed _ rfl

/-- In every state reached from the constructor by edits the OK flag agrees with the
rule. -/
theorem reachable_enabled_iff (c : Collaborators T) (m : DocumentModelCoords T)
    (mw : T.MainWindowModel) (tf : T.Transformation) (x y : Option T.Double)
    (es : List TextChanged) :
    (run (construct c m mw tf x y) es).m_btnOk.enabled = true ↔
      EnablementRule (run (construct c m mw tf x y) es).m_changed
        (fieldText (run (construct c m mw tf x y) es) Field.X)
        (fieldText (run (construct c m mw tf x y) es) Field.Y)
        (fieldValidator (run (construct c m mw tf x y) es) Field.X)
        (fieldValidator (run (construct c m mw tf x y) es) Field.Y) := by
  obtain ⟨d0, h0⟩ := run_updated es (construct c m mw tf x y) (construct_updated c m mw tf x y)
  exact enabled_iff_of_updated _ d0 h0

theorem run_append_singleton (d : DlgEditPointCurve T) (es : List TextChanged)
    (e : TextChanged) : run d (es ++ [e]) = textChanged (run d es) e := by
  simp [run, List.foldl_append]

theorem run_append (d : DlgEditPointCurve T) (es fs : List TextChanged) :
    run d (es ++ fs) = run (run d es) fs := by
  simp [run, List.foldl_append]

/-- The rule read from the side of one field `A` and the other field. -/
theorem enablementRule_field (d : DlgEditPointCurve T) (A : Field) :
    EnablementRule d.m_changed (fieldText d Field.X) (fieldText d Field.Y)
        (fieldValidator d Field.X) (fieldValidator d Field.Y) ↔
      d.m_changed = true ∧ ¬ (fieldText d A = "" ∧ fieldText d A.other = "") ∧
        (fieldText d A ≠ "" → fieldValidator d A (fieldText d A) = QValidatorState.Acceptable) ∧
        (fieldText d A.other ≠ "" →
          fieldValidator d A.other (fieldText d A.other) = QValidatorState.Acceptable) := by
  unfold EnablementRule
  cases A
  · simp only [Field.other]
  · simp only [Field.other]
    tauto

/-- The OK flag right after an edit of field `A`, in a dialog reached from the
constructor. -/
theorem edit_enabled_iff (c : Collaborators T) (m : DocumentModelCoords T)
    (mw : T.MainWindowModel) (tf : T.Transformation) (x y : Option T.Double)
    (es : List TextChanged) (A : Field) (t : String) :
    (textChanged (run (construct c m mw tf x y) es) ⟨A, t⟩).m_btnOk.enabled = true ↔
      ¬ (t = "" ∧ fieldText (run (construct c m mw tf x y) es) A.other = "") ∧
      (t ≠ "" → fieldValidator (run (construct c m mw tf x y) es) A t =
        QValidatorState.Acceptable) ∧
      (fieldText (run (construct c m mw tf x y) es) A.other ≠ "" →
        fieldValidator (run (construct c m mw tf x y) es) A.other
          (fieldText (run (construct c m mw tf x y) es) A.other) =
            QValidatorState.Acceptable) := by
  rw [← run_append_singleton, reachable_enabled_iff, enablementRule_field _ A,
    run_append_singleton, textChanged_m_changed, textChanged_fieldText_self,
    textChanged_fieldText_other, textChanged_fieldValidator, textChanged_fieldValidator]
  simp

/-- The validator attached to a field of a reachable dialog is the one `updateControls`
asks. -/
theorem attached_eq_fieldValidator (c : Collaborators T) (m : DocumentModelCoords T)
    (mw : T.MainWindowModel) (tf : T.Transformation) (x y : Option T.Double)
    (es : List TextChanged) (A : Field) (v : DlgValidatorAbstract)
    (hv : attachedValidator (run (construct c m mw tf x y) es) A = some v) :
    fieldValidator (run (construct c m mw tf x y) es) A = v := by
  rw [reachable_attached] at hv
  exact Option.some.inj hv

theorem setTextGraphX_texts (c : Collaborators T) (t : String) (d : DlgEditPointCurve T) :
    (setTextGraphX c t d).m_editGraphX.text = t ∧
      (setTextGraphX c t d).m_editGraphY.text = d.m_editGraphY.text := by
  unfold setTextGraphX
  split <;> exact ⟨rfl, rfl⟩

theorem setTextGraphY_texts (c : Collaborators T) (t : String) (d : DlgEditPointCurve T) :
    (setTextGraphY c t d).m_editGraphX.text = d.m_editGraphX.text ∧
      (setTextGraphY c t d).m_editGraphY.text = t := by
  unfold setTextGraphY
  split <;> exact ⟨rfl, rfl⟩

/-- Texts of the two fields after `setText` on the first and then on the second. -/
theorem setText_both_texts (c : Collaborators T) (tx ty : String) (d : DlgEditPointCurve T) :
    (setTextGraphY c ty (setTextGraphX c tx d)).m_editGraphX.text = tx ∧
      (setTextGraphY c ty (setTextGraphX c tx d)).m_editGraphY.text = ty :=
  ⟨(setTextGraphY_texts c ty _).1.trans (setTextGraphX_texts c tx d).1,
    (setTextGraphY_texts c ty _).2⟩

/-! ## The group label -/

theorem describeCoords_cartesian : ∀ cx cy : Bool,
    describeCoords "Graph Coordinates" "as" 'X' 'Y' cx cy = specDescription true 'X' cx cy := by
  decide

theorem describeCoords_polar_percent : ∀ cx cy : Bool,
    describeCoords "Graph Coordinates" "as" '%' 'R' cx cy =
      specDescription false '%' cx cy := by
  decide

set_option maxRecDepth 100000 in
set_option maxHeartbeats 4000000 in
theorem describeCoords_polar_other (th : Char) (h : th ≠ '%') (cx cy : Bool) :
    describeCoords "Graph Coordinates" "as" th 'R' cx cy = specDescription false th cx cy := by
  cases cx <;> cases cy <;>
    simp [describeCoords, specDescription, qArg, qArgChar, qArgChars, minEscape,
      replaceEscapes, parseEscape, digitValue, h, String.singleton, String.ext_iff]

theorem describeCoords_polar (th : Char) (cx cy : Bool) :
    describeCoords "Graph Coordinates" "as" th 'R' cx cy = specDescription false th cx cy := by
  by_cases h : th = '%'
  · subst h
    exact describeCoords_polar_percent cx cy
  · exact describeCoords_polar_other th h cx cy

theorem setTextGraphX_description (c : Collaborators T) (t : String)
    (d : DlgEditPointCurve T) :
    (setTextGraphX c t d).description = d.description ∧
      (setTextGraphX c t d).m_editGraphX.whatsThis = d.m_editGraphX.whatsThis := by
  unfold setTextGraphX
  split <;> exact ⟨rfl, rfl⟩

theorem setTextGraphY_description (c : Collaborators T) (t : String)
    (d : DlgEditPointCurve T) :
    (setTextGraphY c t d).description = d.description ∧
      (setTextGraphY c t d).m_editGraphX.whatsThis = d.m_editGraphX.whatsThis := by
  unfold setTextGraphY
  split <;> exact ⟨rfl, rfl⟩

/-- The constructor keeps the label and the first field's help text built by
`createCoords`. -/
theorem construct_description (c : Collaborators T) (m : DocumentModelCoords T)
    (mw : T.MainWindowModel) (tf : T.Transformation) (x y : Option T.Double) :
    (construct c m mw tf x y).description = createCoordsDescription c m ∧
      (construct c m mw tf x y).m_editGraphX.whatsThis = c.tr whatsThisGraphX := by
  unfold construct initializeGraphCoordinates
  exact ⟨((setTextGraphY_description c _ _).1).trans (setTextGraphX_description c _ _).1,
    ((setTextGraphY_description c _ _).2).trans (setTextGraphX_description c _ _).2⟩

/-! ## The help texts -/

set_option maxRecDepth 100000 in
theorem whatsThisGraphX_polar_sentence :
    "For polar plots this is the radius R.".data <:+: whatsThisGraphX.data := by
  decide

set_option maxRecDepth 100000 in
theorem whatsThisGraphY_polar_sentence :
    "For plot plots this is the angle Theta.".data <:+: whatsThisGraphY.data := by
  decide

/-! ## The claims -/

/-- C1: for all field texts, every value of the dirty flag and every pair of validators,
`updateControls` enables the OK button exactly when the dirty flag is set, the two texts
are not both empty, and each field is empty or holds a text that its own validator
classifies `Acceptable`. With both texts empty the button is disabled even when the
dirty flag is set. -/
theorem C1_updateControls_ok_enabled_iff (d : DlgEditPointCurve T) (changed : Bool)
    (textX textY : String) (validatorX validatorY : DlgValidatorAbstract) :
    ((updateControls
        { d with
          m_changed := changed
          m_validatorGraphX := validatorX
          m_validatorGraphY := validatorY
          m_editGraphX := { d.m_editGraphX with text := textX }
          m_editGraphY := { d.m_editGraphY with text := textY } }).m_btnOk.enabled = true ↔
      changed = true ∧ ¬ (textX = "" ∧ textY = "") ∧
        (textX = "" ∨ validatorX textX = QValidatorState.Acceptable) ∧
        (textY = "" ∨ validatorY textY = QValidatorState.Acceptable)) ∧
    (updateControls
        { d with
          m_changed := true
          m_validatorGraphX := validatorX
          m_validatorGraphY := validatorY
          m_editGraphX := { d.m_editGraphX with text := "" }
          m_editGraphY := { d.m_editGraphY with text := "" } }).m_btnOk.enabled = false := by
  constructor
  · rw [updateControls_enabled_iff]
    unfold EnablementRule
    simp only [ne_eq, Decidable.not_imp_iff_and_not, ← or_iff_not_imp_left]
  · rw [← Bool.not_eq_true, updateControls_enabled_iff]
    unfold EnablementRule
    simp

/-- C2: whatever the coordinate model, the collaborators (validators, formatter, whether
`setText` emits `textChanged`) and the initial values, the state returned by the
constructor has `m_changed = false` and the OK button disabled, and after any sequence
of actions none of which is an edit the OK button is still disabled. -/
theorem C2_disabled_until_first_edit (c : Collaborators T) (m : DocumentModelCoords T)
    (mw : T.MainWindowModel) (tf : T.Transformation) (x y : Option T.Double)
    (acts : List Action) (h : ∀ a ∈ acts, a.isEdit = false) :
    (construct c m mw tf x y).m_changed = false ∧
      (construct c m mw tf x y).m_btnOk.enabled = false ∧
      (performAll (construct c m mw tf x y) acts).m_btnOk.enabled = false := by
  rw [performAll_of_no_edit acts _ h]
  exact ⟨construct_m_changed c m mw tf x y, construct_disabled c m mw tf x y,
    construct_disabled c m mw tf x y⟩

/-- C4: in every state reached from the constructor by a finite sequence of edits, the
OK flag equals the enablement rule on the current dirty flag, texts and validators;
hence when the OK button is enabled at least one field is non-empty and every non-empty
field holds a text that the validator attached to it classifies `Acceptable`. -/
theorem C4_ok_flag_follows_rule (c : Collaborators T) (m : DocumentModelCoords T)
    (mw : T.MainWindowModel) (tf : T.Transformation) (x y : Option T.Double)
    (es : List TextChanged) :
    ((run (construct c m mw tf x y) es).m_btnOk.enabled = true ↔
      EnablementRule (run (construct c m mw tf x y) es).m_changed
        (fieldText (run (construct c m mw tf x y) es) Field.X)
        (fieldText (run (construct c m mw tf x y) es) Field.Y)
        (fieldValidator (run (construct c m mw tf x y) es) Field.X)
        (fieldValidator (run (construct c m mw tf x y) es) Field.Y)) ∧
    ((run (construct c m mw tf x y) es).m_btnOk.enabled = true →
      (fieldText (run (construct c m mw tf x y) es) Field.X ≠ "" ∨
        fieldText (run (construct c m mw tf x y) es) Field.Y ≠ "") ∧
      ∀ f : Field, fieldText (run (construct c m mw tf x y) es) f ≠ "" →
        ∃ v, attachedValidator (run (construct c m mw tf x y) es) f = some v ∧
          v (fieldText (run (construct c m mw tf x y) es) f) = QValidatorState.Acceptable) := by
  refine ⟨reachable_enabled_iff c m mw tf x y es, fun hen => ?_⟩
  obtain ⟨_, hne, hx, hy⟩ := (reachable_enabled_iff c m mw tf x y es).1 hen
  refine ⟨?_, fun f hf => ⟨_, reachable_attached c m mw tf x y es f, ?_⟩⟩
  · by_contra hcon
    push_neg at hcon
    exact hne hcon
  · cases f
    · exact hx hf
    · exact hy hf

/-- C9: the dirty flag is false when the constructor returns and true in every state
reached after at least one edit, whatever the edits are. In particular, when the texts
after the edits are again the texts the constructor left and these form a valid pair
(not both empty, every non-empty one `Acceptable`), the OK button is enabled. -/
theorem C9_dirty_flag_never_reset (c : Collaborators T) (m : DocumentModelCoords T)
    (mw : T.MainWindowModel) (tf : T.Transformation) (x y : Option T.Double)
    (e : TextChanged) (es : List TextChanged) :
    (construct c m mw tf x y).m_changed = false ∧
    (run (construct c m mw tf x y) (e :: es)).m_changed = true ∧
    (fieldText (run (construct c m mw tf x y) (e :: es)) Field.X =
        fieldText (construct c m mw tf x y) Field.X →
      fieldText (run (construct c m mw tf x y) (e :: es)) Field.Y =
        fieldText (construct c m mw tf x y) Field.Y →
      EnablementRule true (fieldText (construct c m mw tf x y) Field.X)
        (fieldText (construct c m mw tf x y) Field.Y)
        (fieldValidator (construct c m mw tf x y) Field.X)
        (fieldValidator (construct c m mw tf x y) Field.Y) →
      (run (construct c m mw tf x y) (e :: es)).m_btnOk.enabled = true) := by
  have hch : (run (construct c m mw tf x y) (e :: es)).m_changed = true :=
    run_m_changed es _ (textChanged_m_changed _ e)
  refine ⟨rfl, hch, fun hX hY hrule => ?_⟩
  rw [reachable_enabled_iff, hch, hX, hY, run_fieldValidator, run_fieldValidator]
  exact hrule

/-- C2 at a dialog opened with initial values "10" and "20", both `Acceptable`, and read
twice through `posGraph`. -/
theorem C2_disabled_until_first_edit_witness :
    (numberValidator "10" = QValidatorState.Acceptable ∧
      numberValidator "20" = QValidatorState.Acceptable ∧
      (demoDialog numberValidator true).m_editGraphX.text = "10" ∧
      (demoDialog numberValidator true).m_editGraphY.text = "20") ∧
    ((demoDialog numberValidator true).m_changed = false ∧
      (demoDialog numberValidator true).m_btnOk.enabled = false ∧
      (performAll (demoDialog numberValidator true)
        [Action.readPosGraph, Action.readPosGraph]).m_btnOk.enabled = false) :=
  ⟨by decide,
    C2_disabled_until_first_edit (demoCollaborators numberValidator)
      (demoModel CoordsType.COORDS_TYPE_CARTESIAN CoordScale.COORD_SCALE_LINEAR
        CoordScale.COORD_SCALE_LINEAR) () () (some (10 : ℚ)) (some (20 : ℚ))
      [Action.readPosGraph, Action.readPosGraph] (by decide)⟩

/-- C4 at the dialog opened without initial values in which "10" was typed into the
first field. -/
theorem C4_ok_flag_follows_rule_witness :
    (run (demoDialog numberValidator false) [⟨Field.X, "10"⟩]).m_btnOk.enabled = true ∧
    ((fieldText (run (demoDialog numberValidator false) [⟨Field.X, "10"⟩]) Field.X ≠ "" ∨
        fieldText (run (demoDialog numberValidator false) [⟨Field.X, "10"⟩]) Field.Y ≠ "") ∧
      ∀ f : Field, fieldText (run (demoDialog numberValidator false) [⟨Field.X, "10"⟩]) f ≠ "" →
        ∃ v, attachedValidator (run (demoDialog numberValidator false) [⟨Field.X, "10"⟩]) f
            = some v ∧
          v (fieldText (run (demoDialog numberValidator false) [⟨Field.X, "10"⟩]) f) =
            QValidatorState.Acceptable) :=
  ⟨by decide,
    (C4_ok_flag_follows_rule (demoCollaborators numberValidator)
      (demoModel CoordsType.COORDS_TYPE_CARTESIAN CoordScale.COORD_SCALE_LINEAR
        CoordScale.COORD_SCALE_LINEAR) () () none none [⟨Field.X, "10"⟩]).2 (by decide)⟩

/-- C9 at the dialog opened on ("10", "20"), whose first field is edited to "11" and
then back to "10". -/
theorem C9_dirty_flag_never_reset_witness :
    (demoDialog numberValidator true).m_changed = false ∧
    (run (demoDialog numberValidator true) [⟨Field.X, "11"⟩, ⟨Field.X, "10"⟩]).m_changed = true ∧
    (run (demoDialog numberValidator true)
      [⟨Field.X, "11"⟩, ⟨Field.X, "10"⟩]).m_btnOk.enabled = true :=
  have h := C9_dirty_flag_never_reset (demoCollaborators numberValidator)
    (demoModel CoordsType.COORDS_TYPE_CARTESIAN CoordScale.COORD_SCALE_LINEAR
      CoordScale.COORD_SCALE_LINEAR) () () (some (10 : ℚ)) (some (20 : ℚ))
    ⟨Field.X, "11"⟩ [⟨Field.X, "10"⟩]
  ⟨h.1, h.2.1, h.2.2 (by decide) (by decide) (by decide)⟩

/-- C3 as stated fails: with a validator that classifies the empty text `Acceptable`,
the first field is edited to a bare minus sign (`Intermediate`, OK disabled) and then
emptied; the text it then holds is `Acceptable` to its validator and the second field is
still empty, yet the OK button is disabled. -/
theorem C3_counterexample :
    attachedValidator (demoDialog optionalNumberValidator false) Field.X =
      some optionalNumberValidator ∧
    fieldText (demoDialog optionalNumberValidator false) Field.Y = "" ∧
    optionalNumberValidator "-" = QValidatorState.Intermediate ∧
    (textChanged (demoDialog optionalNumberValidator false) ⟨Field.X, "-"⟩).m_btnOk.enabled
      = false ∧
    optionalNumberValidator
      (fieldText (textChanged (textChanged (demoDialog optionalNumberValidator false)
        ⟨Field.X, "-"⟩) ⟨Field.X, ""⟩) Field.X) = QValidatorState.Acceptable ∧
    fieldText (textChanged (textChanged (demoDialog optionalNumberValidator false)
      ⟨Field.X, "-"⟩) ⟨Field.X, ""⟩) Field.Y = "" ∧
    (textChanged (textChanged (demoDialog optionalNumberValidator false)
      ⟨Field.X, "-"⟩) ⟨Field.X, ""⟩).m_btnOk.enabled = false :=
  ⟨rfl, by decide, by decide, by decide, by decide, by decide, by decide⟩

/-- C3, amended: in a dialog reached from the constructor, for either field `A` with
validator `v`: an edit that leaves `A` holding a non-empty text that `v` classifies
`Intermediate` leaves the OK button disabled; and a later edit that leaves `A` holding a
non-empty text that `v` classifies `Acceptable`, while the other field is empty, leaves
the OK button enabled. -/
theorem C3_intermediate_then_acceptable (c : Collaborators T) (m : DocumentModelCoords T)
    (mw : T.MainWindowModel) (tf : T.Transformation) (x y : Option T.Double)
    (es mid : List TextChanged) (A : Field) (v : DlgValidatorAbstract) (t1 t2 : String)
    (hv : attachedValidator (run (construct c m mw tf x y) es) A = some v)
    (h1 : t1 ≠ "") (h1i : v t1 = QValidatorState.Intermediate)
    (hB : fieldText (run (textChanged (run (construct c m mw tf x y) es) ⟨A, t1⟩) mid)
      A.other = "")
    (h2 : t2 ≠ "") (h2a : v t2 = QValidatorState.Acceptable) :
    (textChanged (run (construct c m mw tf x y) es) ⟨A, t1⟩).m_btnOk.enabled = false ∧
    (textChanged (run (textChanged (run (construct c m mw tf x y) es) ⟨A, t1⟩) mid)
      ⟨A, t2⟩).m_btnOk.enabled = true := by
  have hfv := attached_eq_fieldValidator c m mw tf x y es A v hv
  constructor
  · rw [← Bool.not_eq_true, edit_enabled_iff, hfv]
    intro h
    have := h.2.1 h1
    rw [h1i] at this
    exact absurd this (by decide)
  · have hfv2 : fieldValidator (run (construct c m mw tf x y) (es ++ ⟨A, t1⟩ :: mid)) A = v := by
      rw [run_fieldValidator, ← run_fieldValidator es]
      exact hfv
    have hrun : run (textChanged (run (construct c m mw tf x y) es) ⟨A, t1⟩) mid =
        run (construct c m mw tf x y) (es ++ ⟨A, t1⟩ :: mid) := by
      rw [run_append]
      rfl
    rw [hrun] at hB ⊢
    rw [edit_enabled_iff, hfv2, hB]
    exact ⟨fun h => h2 h.1, fun _ => h2a, fun h => absurd rfl h⟩

/-- C3, amended, at the dialog opened without initial values: "-" is typed into the
first field, then "5". -/
theorem C3_intermediate_then_acceptable_witness :
    (textChanged (demoDialog numberValidator false) ⟨Field.X, "-"⟩).m_btnOk.enabled = false ∧
    (textChanged (textChanged (demoDialog numberValidator false) ⟨Field.X, "-"⟩)
      ⟨Field.X, "5"⟩).m_btnOk.enabled = true :=
  C3_intermediate_then_acceptable (demoCollaborators numberValidator)
    (demoModel CoordsType.COORDS_TYPE_CARTESIAN CoordScale.COORD_SCALE_LINEAR
      CoordScale.COORD_SCALE_LINEAR) () () none none [] [] Field.X numberValidator "-" "5"
    rfl (by decide) (by decide) (by decide) (by decide) (by decide)

/-- C5: `initializeGraphCoordinates` called with a null `xInitialValue` or a null
`yInitialValue` (the other one null or not) leaves both fields holding the empty text,
and its result is the same whatever formatter is installed (the formatter is not
called); called with two values it leaves the first and the second field holding exactly
the two strings `unformattedToFormatted` returns for these values, the dialog's
coordinate model and main-window model, and the given transformation. -/
theorem C5_initializeGraphCoordinates_texts (c : Collaborators T) (d : DlgEditPointCurve T)
    (tf : T.Transformation) (x y : Option T.Double) (xv yv : T.Double) :
    ((initializeGraphCoordinates c none y tf d).m_editGraphX.text = "" ∧
      (initializeGraphCoordinates c none y tf d).m_editGraphY.text = "" ∧
      ∀ fmt, initializeGraphCoordinates { c with unformattedToFormatted := fmt } none y tf d =
        initializeGraphCoordinates c none y tf d) ∧
    ((initializeGraphCoordinates c x none tf d).m_editGraphX.text = "" ∧
      (initializeGraphCoordinates c x none tf d).m_editGraphY.text = "" ∧
      ∀ fmt, initializeGraphCoordinates { c with unformattedToFormatted := fmt } x none tf d =
        initializeGraphCoordinates c x none tf d) ∧
    ((initializeGraphCoordinates c (some xv) (some yv) tf d).m_editGraphX.text =
        (c.unformattedToFormatted xv yv d.m_modelCoords d.m_modelMainWindow tf).1 ∧
      (initializeGraphCoordinates c (some xv) (some yv) tf d).m_editGraphY.text =
        (c.unformattedToFormatted xv yv d.m_modelCoords d.m_modelMainWindow tf).2) := by
  refine ⟨⟨?_, ?_, fun fmt => ?_⟩, ⟨?_, ?_, fun fmt => ?_⟩, ?_, ?_⟩
  · exact (setText_both_texts c "" "" d).1
  · exact (setText_both_texts c "" "" d).2
  · rfl
  · cases x
    · exact (setText_both_texts c "" "" d).1
    · exact (setText_both_texts c "" "" d).1
  · cases x
    · exact (setText_both_texts c "" "" d).2
    · exact (setText_both_texts c "" "" d).2
  · cases x <;> rfl
  · exact (setText_both_texts c _ _ d).1
  · exact (setText_both_texts c _ _ d).2

/-- C6: when the formatter's `formattedToUnformatted` maps the current first-field text
and second-field text, with the dialog's coordinate model and main-window model, to
`(x, y)`, then `posGraph` returns exactly `(x, y)`; and reading `posGraph` leaves the
dialog (texts, dirty flag, OK button) as it is. -/
theorem C6_posGraph_readback (c : Collaborators T) (d : DlgEditPointCurve T)
    (x y : T.Double)
    (h : c.formattedToUnformatted d.m_editGraphX.text d.m_editGraphY.text
      d.m_modelCoords d.m_modelMainWindow = (x, y)) :
    posGraph c d = (x, y) ∧ perform d Action.readPosGraph = d := by
  refine ⟨?_, rfl⟩
  unfold posGraph
  rw [h]

/-- C6 at a dialog whose fields hold "3.5" and "-2.1", which the formatter maps to
(3.5, -2.1). -/
theorem C6_posGraph_readback_witness :
    posGraph (demoCollaborators numberValidator)
        (run (demoDialog numberValidator false) [⟨Field.X, "3.5"⟩, ⟨Field.Y, "-2.1"⟩]) =
      ((7 : ℚ) / 2, -(21 : ℚ) / 10) ∧
    perform (run (demoDialog numberValidator false) [⟨Field.X, "3.5"⟩, ⟨Field.Y, "-2.1"⟩])
        Action.readPosGraph =
      run (demoDialog numberValidator false) [⟨Field.X, "3.5"⟩, ⟨Field.Y, "-2.1"⟩] :=
  C6_posGraph_readback (demoCollaborators numberValidator)
    (run (demoDialog numberValidator false) [⟨Field.X, "3.5"⟩, ⟨Field.Y, "-2.1"⟩])
    ((7 : ℚ) / 2) (-(21 : ℚ) / 10) rfl

/-- C7: in every dialog reached from the constructor, the validator attached to the
first field is the one the factory's `createCartesianOrPolarWithPolarPolar` builds from
`coordScaleXTheta`, the cartesian flag, the X units and the theta units (and the date and
time units and the locale), and the validator attached to the second field is the one
`createCartesianOrPolarWithNonPolarPolar` builds from `coordScaleYRadius`, the same flag,
the Y units and the radius units. Changing the scale and units of the second axis leaves
the first field's validator unchanged, and conversely. -/
theorem C7_validators_per_axis (c : Collaborators T) (m : DocumentModelCoords T)
    (mw : T.MainWindowModel) (tf : T.Transformation) (x y : Option T.Double)
    (es : List TextChanged) (s : CoordScale) (u1 u2 : T.CoordUnitsNonPolarTheta)
    (u3 : T.CoordUnitsPolarTheta) :
    attachedValidator (run (construct c m mw tf x y) es) Field.X =
      some (c.createCartesianOrPolarWithPolarPolar m.coordScaleXTheta (isCartesian m)
        m.coordUnitsX m.coordUnitsTheta m.coordUnitsDate m.coordUnitsTime (c.locale mw)) ∧
    attachedValidator (run (construct c m mw tf x y) es) Field.Y =
      some (c.createCartesianOrPolarWithNonPolarPolar m.coordScaleYRadius (isCartesian m)
        m.coordUnitsY m.coordUnitsRadius m.coordUnitsDate m.coordUnitsTime (c.locale mw)) ∧
    attachedValidator
        (run (construct c
          { m with
            coordScaleYRadius := s
            coordUnitsY := u1
            coordUnitsRadius := u2 } mw tf x y) es) Field.X =
      attachedValidator (run (construct c m mw tf x y) es) Field.X ∧
    attachedValidator
        (run (construct c
          { m with
            coordScaleXTheta := s
            coordUnitsX := u1
            coordUnitsTheta := u3 } mw tf x y) es) Field.Y =
      attachedValidator (run (construct c m mw tf x y) es) Field.Y := by
  simp only [run_attachedValidator, (construct_validators c _ mw tf x y _).2]
  exact ⟨rfl, rfl, rfl, rfl⟩

/-- C8: with untranslated strings, the group label of the constructed dialog, as built
by `createCoords`, is "Graph Coordinates (A, B)" followed by the constraint clause and
" as:", where A is 'X' in cartesian mode and `THETA` in polar mode, B is 'Y' in cartesian
mode and 'R' in polar mode, and the clause is empty, " with A > 0", " with B > 0" or
" with A > 0 and B > 0" according to which of the two axis scales are logarithmic. -/
theorem C8_group_label (c : Collaborators T) (m : DocumentModelCoords T)
    (mw : T.MainWindowModel) (tf : T.Transformation) (x y : Option T.Double) :
    (construct { c with tr := id } m mw tf x y).description =
        createCoordsDescription { c with tr := id } m ∧
      createCoordsDescription { c with tr := id } m =
        specDescription (m.coordsType == CoordsType.COORDS_TYPE_CARTESIAN) c.THETA
          (m.coordScaleXTheta == CoordScale.COORD_SCALE_LOG)
          (m.coordScaleYRadius == CoordScale.COORD_SCALE_LOG) := by
  refine ⟨(construct_description _ m mw tf x y).1, ?_⟩
  unfold createCoordsDescription nameXTheta nameYRadius isCartesian
  cases m.coordsType
  · exact describeCoords_cartesian _ _
  · exact describeCoords_polar c.THETA _ _

/-- C10, the code at a polar coordinate model: `nameXTheta` is `THETA` and `nameYRadius`
is 'R'; the first field's validator is built by `createCartesianOrPolarWithPolarPolar`,
which receives the theta units, and the second field's by
`createCartesianOrPolarWithNonPolarPolar`, which receives the radius units; while the
help text of the first field says "For polar plots this is the radius R." In the
concrete configuration the name of the first field is not 'R'. -/
theorem C10_polar_first_field_is_theta (c : Collaborators T) (m : DocumentModelCoords T)
    (mw : T.MainWindowModel) (tf : T.Transformation) (x y : Option T.Double) :
    nameXTheta c { m with coordsType := CoordsType.COORDS_TYPE_POLAR } = c.THETA ∧
    nameYRadius { m with coordsType := CoordsType.COORDS_TYPE_POLAR } = 'R' ∧
    attachedValidator
        (construct c { m with coordsType := CoordsType.COORDS_TYPE_POLAR } mw tf x y)
        Field.X =
      some (c.createCartesianOrPolarWithPolarPolar m.coordScaleXTheta false
        m.coordUnitsX m.coordUnitsTheta m.coordUnitsDate m.coordUnitsTime (c.locale mw)) ∧
    attachedValidator
        (construct c { m with coordsType := CoordsType.COORDS_TYPE_POLAR } mw tf x y)
        Field.Y =
      some (c.createCartesianOrPolarWithNonPolarPolar m.coordScaleYRadius false
        m.coordUnitsY m.coordUnitsRadius m.coordUnitsDate m.coordUnitsTime (c.locale mw)) ∧
    (construct { c with tr := id } { m with coordsType := CoordsType.COORDS_TYPE_POLAR }
        mw tf x y).m_editGraphX.whatsThis = whatsThisGraphX ∧
    "For polar plots this is the radius R.".data <:+: whatsThisGraphX.data ∧
    "For plot plots this is the angle Theta.".data <:+: whatsThisGraphY.data ∧
    nameXTheta (demoCollaborators numberValidator)
      (demoModel CoordsType.COORDS_TYPE_POLAR CoordScale.COORD_SCALE_LINEAR
        CoordScale.COORD_SCALE_LINEAR) ≠ 'R' := by
  refine ⟨rfl, rfl, ?_, ?_, (construct_description _ _ mw tf x y).2,
    whatsThisGraphX_polar_sentence, whatsThisGraphY_polar_sentence, by decide⟩
  · rw [(construct_validators c _ mw tf x y _).2]
    rfl
  · rw [(construct_validators c _ mw tf x y _).2]
    rfl

end DlgEditPointCurve

end Engauge
